import Mathlib

/-!
TCP dumbbell sweep harness (tcp-dumbbell-enhanced.cc)

A shallow embedding of the experiment harness in `src/tcp-dumbbell-enhanced.cc`:
the scenario and variant catalogs, the address allocation of one dumbbell
topology, the traffic wiring, the per-flow metric derivation, the CSV row
writer and the variant x scenario sweep.

The packet simulation engine itself is outside the program.  What the harness
needs from it is taken as a parameter (`Engine`): the registry lookup of a
congestion-control type and the result of running one configured scenario.
The small helper contracts the harness relies on (dotted-quad address text,
the address helper that hands out `network | 1`, `network | 2`, ..., the
point-to-point helper that returns its two devices in argument order, the
data-rate text) are written out as executable definitions.

Doubles are idealised: a finite value is an exact rational, an operation
whose exact result reaches the overflow threshold of the format yields an
infinity, and a division by zero yields an infinity or NaN.  Rounding of
finite results is not modelled.
-/

namespace TcpDumbbell

/-! ## Catalogs -/

/-- One entry of the scenario table (source lines 25-32). -/
structure Scenario where
  bandwidth : String
  delay : String
  bufferPackets : Nat
  numFlows : Nat
  description : String
  deriving DecidableEq

/-- The scenario table (source lines 34-39). -/
def scenarios : List Scenario :=
  [ ⟨"2Mbps", "10ms", 10, 2, "Low-bandwidth, Low-latency"⟩,
    ⟨"2Mbps", "100ms", 20, 3, "Low-bandwidth, High-latency"⟩,
    ⟨"10Mbps", "10ms", 20, 3, "High-bandwidth, Low-latency"⟩,
    ⟨"10Mbps", "100ms", 50, 3, "High-bandwidth, High-latency"⟩ ]

/-- Value of a run of decimal digits; `none` on an empty run or a non-digit. -/
def decimalValue : List Char → Option Nat
  | [] => none
  | c :: cs =>
    (c :: cs).foldl
      (fun acc d =>
        match acc with
        | none => none
        | some v => if d.isDigit then some (v * 10 + (d.toNat - 48)) else none)
      (some 0)

/-- Split a character list at every occurrence of `sep`. -/
def splitFields (sep : Char) : List Char → List (List Char)
  | [] => [[]]
  | c :: cs =>
    if c = sep then [] :: splitFields sep cs
    else
      match splitFields sep cs with
      | [] => [[c]]
      | f :: fs => (c :: f) :: fs

/-- The four octets of a dotted-quad text, as written (no range check). -/
def octetsOf (s : String) : Option (List Nat) :=
  match splitFields '.' s.data with
  | [a, b, c, d] =>
    match decimalValue a, decimalValue b, decimalValue c, decimalValue d with
    | some x, some y, some z, some w => some [x, y, z, w]
    | _, _, _, _ => none
  | _ => none

/-- A text is a well-formed IPv4 address when it has four decimal octets,
each in 0..255. -/
def wellFormedIpv4 (s : String) : Bool :=
  match octetsOf s with
  | some os => os.all (fun o => o ≤ 255)
  | none => false

/-- The engine's conversion of address text to a 32-bit address
(`Ipv4Address(const char*)`); `none` where the text is rejected. -/
def parseIpv4 (s : String) : Option Nat :=
  match octetsOf s with
  | some [x, y, z, w] =>
    if x ≤ 255 ∧ y ≤ 255 ∧ z ≤ 255 ∧ w ≤ 255 then
      some (((x * 256 + y) * 256 + z) * 256 + w)
    else none
  | _ => none

/-- Wrap-around of a `uint32_t`. -/
def u32 (n : Nat) : Nat := n % 2 ^ 32

/-- Text built at source lines 124-125: "10.2." followed by j+1 and ".0". -/
def senderSubnet (j : Nat) : String :=
  "10.2." ++ toString (u32 (j + 1)) ++ ".0"

/-- Text built at source lines 134-135: "10.3." followed by j+1 and ".0". -/
def receiverSubnet (j : Nat) : String :=
  "10.3." ++ toString (u32 (j + 1)) ++ ".0"

/-! ## Address allocation -/

/-- A node of the dumbbell: sender j, receiver j, or router 0 / router 1. -/
inductive NodeRef
  | sender (j : Nat)
  | receiver (j : Nat)
  | router (k : Nat)
  deriving DecidableEq

/-- An address block: a network number and a mask. -/
structure Block where
  network : Nat
  mask : Nat
  deriving DecidableEq

/-- An address belongs to a block when masking it gives the network number. -/
def Block.contains (b : Block) (a : Nat) : Prop := a &&& b.mask = b.network

instance (b : Block) (a : Nat) : Decidable (b.contains a) := by
  unfold Block.contains; infer_instance

/-- Two blocks are disjoint when no address belongs to both. -/
def Block.disjoint (b c : Block) : Prop := ∀ a : Nat, ¬ (b.contains a ∧ c.contains a)

/-- The devices `PointToPointHelper::Install (a, b)` returns: device 0 sits on
`a`, device 1 on `b`.  A device is identified by the node it is installed on. -/
def p2pInstall (a b : NodeRef) : List NodeRef := [a, b]

/-- State of the address helper after `SetBase`: network, mask and the next
host number to hand out (the helper starts at host 0.0.0.1). -/
structure Ipv4AddressHelper where
  network : Nat
  mask : Nat
  next : Nat
  deriving DecidableEq

/-- `SetBase (network, mask)`; fails where the engine rejects the text. -/
def setBase (network mask : String) : Option Ipv4AddressHelper :=
  match parseIpv4 network, parseIpv4 mask with
  | some n, some m => some ⟨n, m, 1⟩
  | _, _ => none

/-- `Assign (devices)`: each device in container order receives
`network | next`, and `next` advances by one. -/
def assign (h : Ipv4AddressHelper) : List NodeRef → List (NodeRef × Nat)
  | [] => []
  | d :: ds => (d, h.network ||| h.next) :: assign { h with next := h.next + 1 } ds

/-- The addresses of one link: the block set by `SetBase` and the interface
container `Assign` returned (`GetAddress (i)` is the address of entry i). -/
structure LinkAddresses where
  block : Block
  interfaces : List (NodeRef × Nat)
  deriving DecidableEq

/-- One `SetBase` followed by one `Assign` (source lines 117-118, 126-127,
136-137). -/
def assignLink (network mask : String) (devices : List NodeRef) : Option LinkAddresses :=
  match setBase network mask with
  | some h => some ⟨⟨h.network, h.mask⟩, assign h devices⟩
  | none => none

/-- `GetAddress (i)` of an interface container. -/
def LinkAddresses.getAddress (l : LinkAddresses) (i : Nat) : Option Nat :=
  match l.interfaces.get? i with
  | some p => some p.2
  | none => none

/-- Collect a list of results, failing as soon as one of them fails. -/
def allSome {α : Type} : List (Option α) → Option (List α)
  | [] => some []
  | none :: _ => none
  | some a :: rest =>
    match allSome rest with
    | some as => some (a :: as)
    | none => none

/-- Devices of the sender access links (source line 109). -/
def senderDevices (numFlows : Nat) : List (List NodeRef) :=
  (List.range numFlows).map (fun j => p2pInstall (.sender j) (.router 0))

/-- Devices of the receiver access links (source line 110). -/
def receiverDevices (numFlows : Nat) : List (List NodeRef) :=
  (List.range numFlows).map (fun j => p2pInstall (.router 1) (.receiver j))

/-- Devices of the bottleneck link (source line 101). -/
def bottleneckDevices : List NodeRef := p2pInstall (.router 0) (.router 1)

/-- Bottleneck addresses (source lines 117-118). -/
def bottleneckInterfaces : Option LinkAddresses :=
  assignLink "10.1.1.0" "255.255.255.0" bottleneckDevices

/-- Address assignment of sender link j (loop body, source lines 124-127). -/
def senderInterface (numFlows j : Nat) : Option LinkAddresses :=
  match (senderDevices numFlows).get? j with
  | some devs => assignLink (senderSubnet j) "255.255.255.0" devs
  | none => none

/-- Address assignment of receiver link j (loop body, source lines 134-137). -/
def receiverInterface (numFlows j : Nat) : Option LinkAddresses :=
  match (receiverDevices numFlows).get? j with
  | some devs => assignLink (receiverSubnet j) "255.255.255.0" devs
  | none => none

/-- Sender loop (source lines 121-128). -/
def senderInterfaces (numFlows : Nat) : Option (List LinkAddresses) :=
  allSome ((List.range numFlows).map (senderInterface numFlows))

/-- Receiver loop (source lines 131-138). -/
def receiverInterfaces (numFlows : Nat) : Option (List LinkAddresses) :=
  allSome ((List.range numFlows).map (receiverInterface numFlows))

/-- The blocks of one topology instance in assignment order: bottleneck, then
the sender links, then the receiver links; `none` where an assignment fails. -/
def addressBlocks (numFlows : Nat) : Option (List Block) :=
  match bottleneckInterfaces, senderInterfaces numFlows, receiverInterfaces numFlows with
  | some b, some ss, some rs => some (b.block :: (ss.map (·.block) ++ rs.map (·.block)))
  | _, _, _ => none

/-! ## Traffic wiring -/

/-- An installed application. -/
inductive App
  | onOff (node : NodeRef) (remoteAddress remotePort : Nat) (rate : String)
      (startTime stopTime : ℚ)
  | packetSink (node : NodeRef) (localAddress localPort : Nat)
  deriving DecidableEq

/-- The port used by every flow (source line 144). -/
def port : Nat := 9

/-- `Ipv4Address::GetAny ()`, the address 0.0.0.0. -/
def anyAddress : Nat := 0

/-- Start time of generator j in seconds (source line 153). -/
def startTime (j : Nat) : ℚ := 1.0 + 0.2 * (j : ℚ)

/-- Body of the application loop for flow j (source lines 150-160): the
generator on sender j, then the sink on receiver j. -/
def wireFlow (simulationTime : ℚ) (receivers : List LinkAddresses) (j : Nat) :
    Option (List App) :=
  match receivers.get? j with
  | some l =>
    match l.getAddress 1 with
    | some a =>
      some [ App.onOff (.sender j) a port "5Mbps" (startTime j) simulationTime,
             App.packetSink (.receiver j) anyAddress port ]
    | none => none
  | none => none

/-- The application loop (source lines 147-161). -/
def wireTraffic (simulationTime : ℚ) (numFlows : Nat) (receivers : List LinkAddresses) :
    Option (List App) :=
  match allSome ((List.range numFlows).map (wireFlow simulationTime receivers)) with
  | some groups => some groups.flatten
  | none => none

/-- What one iteration builds before the engine runs (source lines 74-161). -/
structure Topology where
  numFlows : Nat
  bottleneckRate : String
  bottleneckDelay : String
  accessRate : String
  accessDelay : String
  bottleneck : LinkAddresses
  senders : List LinkAddresses
  receivers : List LinkAddresses
  apps : List App
  deriving DecidableEq

/-- The fixed access-link data rate (source line 88). -/
def accessDataRate : String := "100Mbps"

/-- The fixed access-link delay (source line 89). -/
def accessDelay : String := "2ms"

/-- Topology, addresses and applications of one scenario; `none` where an
engine call made on the way fails. -/
def buildTopology (s : Scenario) (simulationTime : ℚ) : Option Topology :=
  match bottleneckInterfaces, senderInterfaces s.numFlows, receiverInterfaces s.numFlows with
  | some b, some ss, some rs =>
    match wireTraffic simulationTime s.numFlows rs with
    | some apps =>
      some ⟨s.numFlows, s.bandwidth, s.delay, accessDataRate, accessDelay, b, ss, rs, apps⟩
    | none => none
  | _, _, _ => none

/-! ## Link rates -/

/-- Multiplier of a data-rate unit, in bits per second (the decimal units of
the engine's `DataRate` text format). -/
def rateUnit (u : String) : Option Nat :=
  if u = "bps" ∨ u = "b/s" then some 1
  else if u = "Bps" ∨ u = "B/s" then some 8
  else if u = "kbps" ∨ u = "kb/s" ∨ u = "Kbps" ∨ u = "Kb/s" then some 1000
  else if u = "kBps" ∨ u = "kB/s" ∨ u = "KBps" ∨ u = "KB/s" then some 8000
  else if u = "Mbps" ∨ u = "Mb/s" then some 1000000
  else if u = "MBps" ∨ u = "MB/s" then some 8000000
  else if u = "Gbps" ∨ u = "Gb/s" then some 1000000000
  else if u = "GBps" ∨ u = "GB/s" then some 8000000000
  else none

/-- A data-rate text with a whole-number value, in bits per second. -/
def parseDataRate (s : String) : Option Nat :=
  match decimalValue (s.data.takeWhile Char.isDigit),
        rateUnit (String.mk (s.data.dropWhile Char.isDigit)) with
  | some n, some k => some (n * k)
  | _, _ => none

/-! ## Metrics -/

/-- A double, idealised: an exact finite value, an infinity, or NaN.  The
sign of a zero is not kept. -/
inductive Dbl
  | fin (q : ℚ)
  | inf (negative : Bool)
  | nan
  deriving DecidableEq

/-- The overflow threshold of a double: an exact result of this magnitude or
more becomes an infinity, a smaller one stays finite. -/
def dblOverflow : ℚ := 2 ^ 1024 - 2 ^ 970

/-- The double for an exact result: finite below the overflow threshold,
an infinity of the same sign from the threshold on. -/
def Dbl.ofExact (q : ℚ) : Dbl :=
  if q ≤ -dblOverflow then .inf true
  else if dblOverflow ≤ q then .inf false
  else .fin q

/-- Product of two doubles. -/
def Dbl.mul : Dbl → Dbl → Dbl
  | .fin a, .fin b => Dbl.ofExact (a * b)
  | .fin a, .inf n => if a = 0 then .nan else .inf (xor n (decide (a < 0)))
  | .inf n, .fin b => if b = 0 then .nan else .inf (xor n (decide (b < 0)))
  | .inf n, .inf m => .inf (xor n m)
  | .nan, _ => .nan
  | _, .nan => .nan

/-- Quotient of two doubles. -/
def Dbl.div : Dbl → Dbl → Dbl
  | .fin a, .fin b =>
    if b ≠ 0 then Dbl.ofExact (a / b)
    else if a = 0 then .nan
    else .inf (decide (a < 0))
  | .fin _, .inf _ => .fin 0
  | .inf n, .fin b => .inf (xor n (decide (b < 0)))
  | .inf _, .inf _ => .nan
  | .nan, _ => .nan
  | _, .nan => .nan

/-- Per-flow counters of the flow monitor: `rxBytes` is a `uint64_t`, the
packet counts are `uint32_t`, and `delaySum` is a `Time`, a signed 64-bit
count of nanoseconds. -/
structure FlowStats where
  rxBytes : Nat
  txPackets : Nat
  rxPackets : Nat
  lostPackets : Nat
  delaySum : Int
  inRange : rxBytes < 2 ^ 64 ∧ txPackets < 2 ^ 32 ∧ rxPackets < 2 ^ 32 ∧
    lostPackets < 2 ^ 32 ∧ -2 ^ 63 ≤ delaySum ∧ delaySum < 2 ^ 63

/-- The classifier's description of a flow. -/
structure FiveTuple where
  sourceAddress : Nat
  destinationAddress : Nat
  protocol : Nat
  sourcePort : Nat
  destinationPort : Nat
  deriving DecidableEq

/-- One entry of the statistics map together with the classifier's answer for
its key. -/
structure FlowEntry where
  flowId : Nat
  tuple : FiveTuple
  stats : FlowStats

/-- The statistics map (`std::map<FlowId, FlowStats>`): its entries in
iteration order, which is strictly ascending in the key. -/
structure FlowMap where
  entries : List FlowEntry
  ascending : entries.Pairwise (fun a b => a.flowId < b.flowId)

/-- `Time::GetSeconds ()`. -/
def getSeconds (t : Int) : ℚ := (t : ℚ) / 1000000000

/-- Throughput in Mbps (source line 179). -/
def throughput (rxBytes : Nat) (simulationTime : ℚ) : Dbl :=
  Dbl.div (Dbl.mul (.fin (rxBytes : ℚ)) (.fin 8.0)) (Dbl.mul (.fin simulationTime) (.fin 1e6))

/-- Average delay in seconds (source lines 180-182). -/
def avgDelay (delaySum : Int) (rxPackets : Nat) : Dbl :=
  if rxPackets > 0 then Dbl.div (.fin (getSeconds delaySum)) (.fin (rxPackets : ℚ)) else .fin 0

/-- The values written for one flow, in the order they are written (source
lines 184-198). -/
structure FlowRecord where
  variant : String
  scenario : Nat
  description : String
  bandwidth : String
  delay : String
  bufferPackets : Nat
  numFlows : Nat
  flowId : Nat
  source : Nat
  destination : Nat
  throughputMbps : Dbl
  delaySeconds : Dbl
  lostPackets : Nat
  txPackets : Nat
  rxPackets : Nat
  deriving DecidableEq

/-- Body of the statistics loop for one flow (source lines 178-198). -/
def mkRecord (simulationTime : ℚ) (variant : String) (i : Nat) (s : Scenario)
    (e : FlowEntry) : FlowRecord :=
  { variant := variant
    scenario := i + 1
    description := s.description
    bandwidth := s.bandwidth
    delay := s.delay
    bufferPackets := s.bufferPackets
    numFlows := s.numFlows
    flowId := e.flowId
    source := e.tuple.sourceAddress
    destination := e.tuple.destinationAddress
    throughputMbps := throughput e.stats.rxBytes simulationTime
    delaySeconds := avgDelay e.stats.delaySum e.stats.rxPackets
    lostPackets := e.stats.lostPackets
    txPackets := e.stats.txPackets
    rxPackets := e.stats.rxPackets }

/-! ## Results file -/

/-- The header line (source line 42), without its line end. -/
def csvHeader : String :=
  "Variant,Scenario,Description,Bandwidth,Delay,BufferPackets,NumFlows,FlowId,Source,Destination,Throughput_Mbps,Delay_s,LostPackets,TxPackets,RxPackets"

/-- An address as the stream prints it: dotted quad. -/
def showIpv4 (a : Nat) : String :=
  toString (a / 16777216 % 256) ++ "." ++ toString (a / 65536 % 256) ++ "." ++
    toString (a / 256 % 256) ++ "." ++ toString (a % 256)

/-- One data line (source lines 184-198), without its line end.  The text the
stream produces for a double is the parameter `fmt`. -/
def csvRow (fmt : Dbl → String) (r : FlowRecord) : String :=
  r.variant ++ "," ++ toString r.scenario ++ "," ++ r.description ++ "," ++
    r.bandwidth ++ "," ++ r.delay ++ "," ++ toString r.bufferPackets ++ "," ++
    toString r.numFlows ++ "," ++ toString r.flowId ++ "," ++ showIpv4 r.source ++ "," ++
    showIpv4 r.destination ++ "," ++ fmt r.throughputMbps ++ "," ++ fmt r.delaySeconds ++ "," ++
    toString r.lostPackets ++ "," ++ toString r.txPackets ++ "," ++ toString r.rxPackets

/-- The comma-separated fields of a line. -/
def csvFields (line : String) : List String :=
  (splitFields ',' line.data).map String.mk

/-! ## The sweep -/

/-- Handle of a registered type. -/
structure TypeId where
  uid : Nat
  deriving DecidableEq

/-- What the harness sets up for one run of the engine: the default socket
type (source line 67), the default queue size (lines 97-98), the topology
with its addresses and applications, and the stop time (line 168). -/
structure RunConfig where
  socketType : TypeId
  queueMaxPackets : Nat
  topology : Topology
  stopTime : ℚ

/-- The simulation engine as the harness uses it.  `lookupByName` is `none`
where the registry lookup raises; `run` performs one configured run from the
current engine state and returns the new state with the statistics map.  An
engine call that terminates the process is modelled only for rejected
address text. -/
structure Engine (σ : Type) where
  lookupByName : String → Option TypeId
  run : σ → RunConfig → σ × FlowMap

/-- Outcome of the variant resolution block (source lines 50-65). -/
inductive Resolution
  | resolved (tid : TypeId)
  | lookupRaised
  | notAttempted
  deriving DecidableEq

/-- Result of a guarded registry lookup. -/
def Resolution.ofLookup : Option TypeId → Resolution
  | some tid => .resolved tid
  | none => .lookupRaised

/-- The resolution block (source lines 50-65). -/
def resolveVariant {σ : Type} (eng : Engine σ) (variant : String) : Resolution :=
  if variant = "TcpNewReno" then .ofLookup (eng.lookupByName "ns3::TcpNewReno")
  else if variant = "TcpCubic" then .ofLookup (eng.lookupByName "ns3::TcpCubic")
  else if variant = "TcpBbr" then .ofLookup (eng.lookupByName "ns3::TcpBbr")
  else .notAttempted

/-- The console warning of the catch block (source line 63). -/
def skipWarning (variant : String) : String :=
  "\n⚠️  " ++ variant ++ " not available in this NS-3 version, skipping...\n"

/-- What a part of the sweep adds to the results file and to the console
warnings. -/
structure Output where
  rows : List FlowRecord
  warnings : List String
  deriving DecidableEq

/-- Nothing written. -/
def Output.empty : Output := ⟨[], []⟩

/-- Output of one part followed by the output of the next. -/
def Output.append (a b : Output) : Output := ⟨a.rows ++ b.rows, a.warnings ++ b.warnings⟩

/-- The statistics loop (source lines 176-204): one record per map entry, in
map order. -/
def collect (simulationTime : ℚ) (variant : String) (i : Nat) (s : Scenario)
    (stats : FlowMap) : List FlowRecord :=
  stats.entries.map (mkRecord simulationTime variant i s)

/-- The configuration of the run for scenario `s` under type `tid`. -/
def runConfig (simulationTime : ℚ) (tid : TypeId) (s : Scenario) : Option RunConfig :=
  match buildTopology s simulationTime with
  | some topo => some ⟨tid, s.bufferPackets, topo, simulationTime + 1.0⟩
  | none => none

/-- Body of the scenario loop (source lines 70-206); `none` where the
process is aborted. -/
def runScenario {σ : Type} (eng : Engine σ) (simulationTime : ℚ) (variant : String)
    (tid : TypeId) (i : Nat) (s : Scenario) (st : σ) : Option (σ × Output) :=
  match runConfig simulationTime tid s with
  | some cfg =>
    let r := eng.run st cfg
    some (r.1, ⟨collect simulationTime variant i s r.2, []⟩)
  | none => none

/-- Sequencing of two parts of the run: the second starts in the engine state
the first leaves, its output follows the output of the first, and an abort
of either aborts the whole. -/
def andThen {σ : Type} (first : Option (σ × Output)) (next : σ → Option (σ × Output)) :
    Option (σ × Output) :=
  match first with
  | some (st1, o1) =>
    match next st1 with
    | some (st2, o2) => some (st2, o1.append o2)
    | none => none
  | none => none

/-- The scenario loop (source lines 69-207), from index `i` on. -/
def runScenarios {σ : Type} (eng : Engine σ) (simulationTime : ℚ) (variant : String)
    (tid : TypeId) : Nat → List Scenario → σ → Option (σ × Output)
  | _, [], st => some (st, Output.empty)
  | i, s :: rest, st =>
    andThen (runScenario eng simulationTime variant tid i s st)
      (runScenarios eng simulationTime variant tid (i + 1) rest)

/-- Body of the variant loop (source lines 46-207). -/
def runVariant {σ : Type} (eng : Engine σ) (simulationTime : ℚ) (scens : List Scenario)
    (variant : String) (st : σ) : Option (σ × Output) :=
  match resolveVariant eng variant with
  | .notAttempted => some (st, Output.empty)
  | .lookupRaised => some (st, ⟨[], [skipWarning variant]⟩)
  | .resolved tid => runScenarios eng simulationTime variant tid 0 scens st

/-- The variant loop (source lines 45-208). -/
def sweep {σ : Type} (eng : Engine σ) (simulationTime : ℚ) (scens : List Scenario) :
    List String → σ → Option (σ × Output)
  | [], st => some (st, Output.empty)
  | v :: vs, st =>
    andThen (runVariant eng simulationTime scens v st) (sweep eng simulationTime scens vs)

/-- The 32-bit address a.b.c.d. -/
def ipv4 (a b c d : Nat) : Nat := ((a * 256 + b) * 256 + c) * 256 + d

/-- The block a.b.c.0/24. -/
def slash24 (a b c : Nat) : Block := ⟨ipv4 a b c 0, ipv4 255 255 255 0⟩

/-- The sender link of flow j as the allocation leaves it. -/
def senderLinkOf (j : Nat) : LinkAddresses :=
  ⟨slash24 10 2 (j + 1), [(.sender j, ipv4 10 2 (j + 1) 1), (.router 0, ipv4 10 2 (j + 1) 2)]⟩

/-- The receiver link of flow j as the allocation leaves it. -/
def receiverLinkOf (j : Nat) : LinkAddresses :=
  ⟨slash24 10 3 (j + 1), [(.router 1, ipv4 10 3 (j + 1) 1), (.receiver j, ipv4 10 3 (j + 1) 2)]⟩

/-- The blocks of a topology with n flows, written out. -/
def expectedBlocks (n : Nat) : List Block :=
  slash24 10 1 1 ::
    ((List.range n).map (fun j => slash24 10 2 (j + 1)) ++
      (List.range n).map (fun j => slash24 10 3 (j + 1)))


/-- The applications of a topology with n flows, written out: for each flow
index in ascending order, the generator and then the sink. -/
def expectedApps (simulationTime : ℚ) (n : Nat) : List App :=
  ((List.range n).map (fun j =>
    [ App.onOff (.sender j) (ipv4 10 3 (j + 1) 2) 9 "5Mbps" (1 + (j : ℚ) / 5) simulationTime,
      App.packetSink (.receiver j) 0 9 ])).flatten

/-- The application is a traffic generator installed on `node`. -/
def App.isGeneratorOn (node : NodeRef) : App → Bool
  | .onOff n _ _ _ _ _ => decide (n = node)
  | .packetSink _ _ _ => false

/-- The application is a sink installed on `node`. -/
def App.isSinkOn (node : NodeRef) : App → Bool
  | .onOff _ _ _ _ _ _ => false
  | .packetSink n _ _ => decide (n = node)

/-- The empty statistics map. -/
def emptyFlowMap : FlowMap := ⟨[], List.Pairwise.nil⟩

/-- An engine that registers every type and never observes a flow. -/
def quietEngine : Engine Unit :=
  { lookupByName := fun name => some ⟨name.length⟩
    run := fun _ _ => ((), emptyFlowMap) }

/-- Statistics of a run with two TCP connections as a flow monitor on every
node reports them: each connection appears as a data flow and as the reverse
flow of its acknowledgements. -/
def fourFlowMap : FlowMap :=
  ⟨[ ⟨1, ⟨ipv4 10 2 1 1, ipv4 10 3 1 2, 6, 49153, 9⟩, ⟨2500000, 4400, 4300, 100, 90000000000, by decide⟩⟩,
     ⟨2, ⟨ipv4 10 3 1 2, ipv4 10 2 1 1, 6, 9, 49153⟩, ⟨120000, 2200, 2200, 0, 30000000000, by decide⟩⟩,
     ⟨3, ⟨ipv4 10 2 2 1, ipv4 10 3 2 2, 6, 49153, 9⟩, ⟨2400000, 4200, 4100, 100, 88000000000, by decide⟩⟩,
     ⟨4, ⟨ipv4 10 3 2 2, ipv4 10 2 2 1, 6, 9, 49153⟩, ⟨110000, 2100, 2100, 0, 29000000000, by decide⟩⟩ ],
   by decide⟩

/-- An engine that registers every type and reports `fourFlowMap` for every
run. -/
def fourFlowEngine : Engine Unit :=
  { lookupByName := fun name => some ⟨name.length⟩
    run := fun _ _ => ((), fourFlowMap) }

/-- A statistics map with the single flow `k`. -/
def singleFlowMap (k : Nat) : FlowMap :=
  ⟨[⟨k, ⟨ipv4 10 2 1 1, ipv4 10 3 1 2, 6, 49153, 9⟩, ⟨1000, 10, 8, 2, 16000000, by decide⟩⟩],
   List.pairwise_singleton _ _⟩

/-- An engine without a registered BBR type: the lookup of "ns3::TcpBbr"
raises.  Its state counts the runs made so far, and each run reports one
flow. -/
def noBbrEngine : Engine Nat :=
  { lookupByName := fun name => if name = "ns3::TcpBbr" then none else some ⟨name.length⟩
    run := fun runs _ => (runs + 1, singleFlowMap 1) }

/-- The first scenario of the catalog. -/
def lowLowScenario : Scenario := ⟨"2Mbps", "10ms", 10, 2, "Low-bandwidth, Low-latency"⟩

/-- A scenario with 256 flows. -/
def wideScenario : Scenario := ⟨"2Mbps", "10ms", 10, 256, "Wide"⟩
/-! ## Address allocation: lemmas -/

theorem allSome_map_some {α β : Type} (f : α → Option β) (g : α → β) (l : List α)
    (h : ∀ x ∈ l, f x = some (g x)) : allSome (l.map f) = some (l.map g) := by
  induction l with
  | nil => rfl
  | cons a t ih =>
    have ha : f a = some (g a) := h a (List.mem_cons_self a t)
    have ht : allSome (t.map f) = some (t.map g) :=
      ih (fun x hx => h x (List.mem_cons_of_mem a hx))
    simp [allSome, ha, ht]

set_option maxRecDepth 100000 in
theorem senderLink_small : ∀ j, j < 255 →
    assignLink (senderSubnet j) "255.255.255.0" (p2pInstall (.sender j) (.router 0))
      = some ⟨slash24 10 2 (j + 1),
          [(.sender j, ipv4 10 2 (j + 1) 1), (.router 0, ipv4 10 2 (j + 1) 2)]⟩ := by
  decide

set_option maxRecDepth 100000 in
theorem receiverLink_small : ∀ j, j < 255 →
    assignLink (receiverSubnet j) "255.255.255.0" (p2pInstall (.router 1) (.receiver j))
      = some ⟨slash24 10 3 (j + 1),
          [(.router 1, ipv4 10 3 (j + 1) 1), (.receiver j, ipv4 10 3 (j + 1) 2)]⟩ := by
  decide

theorem bottleneckInterfaces_eq :
    bottleneckInterfaces
      = some ⟨slash24 10 1 1, [(.router 0, ipv4 10 1 1 1), (.router 1, ipv4 10 1 1 2)]⟩ := by
  decide

theorem senderInterface_eq (n j : Nat) (hj : j < n) (hn : n ≤ 255) :
    senderInterface n j = some (senderLinkOf j) := by
  have hget : (senderDevices n).get? j = some (p2pInstall (.sender j) (.router 0)) := by
    simp [senderDevices, List.getElem?_range, hj]
  unfold senderInterface
  rw [hget]
  exact senderLink_small j (by omega)

theorem receiverInterface_eq (n j : Nat) (hj : j < n) (hn : n ≤ 255) :
    receiverInterface n j = some (receiverLinkOf j) := by
  have hget : (receiverDevices n).get? j = some (p2pInstall (.router 1) (.receiver j)) := by
    simp [receiverDevices, List.getElem?_range, hj]
  unfold receiverInterface
  rw [hget]
  exact receiverLink_small j (by omega)

theorem senderInterfaces_eq (n : Nat) (hn : n ≤ 255) :
    senderInterfaces n = some ((List.range n).map senderLinkOf) :=
  allSome_map_some _ _ _ (fun j hj => senderInterface_eq n j (List.mem_range.mp hj) hn)

theorem receiverInterfaces_eq (n : Nat) (hn : n ≤ 255) :
    receiverInterfaces n = some ((List.range n).map receiverLinkOf) :=
  allSome_map_some _ _ _ (fun j hj => receiverInterface_eq n j (List.mem_range.mp hj) hn)

theorem addressBlocks_eq (n : Nat) (hn : n ≤ 255) :
    addressBlocks n = some (expectedBlocks n) := by
  unfold addressBlocks
  rw [bottleneckInterfaces_eq, senderInterfaces_eq n hn, receiverInterfaces_eq n hn]
  simp [expectedBlocks, senderLinkOf, receiverLinkOf, Function.comp_def]

theorem slash24_disjoint (a b c x y z : Nat) (h : ipv4 a b c 0 ≠ ipv4 x y z 0) :
    (slash24 a b c).disjoint (slash24 x y z) := by
  intro t ht
  apply h
  have h1 : t &&& (slash24 a b c).mask = (slash24 a b c).network := ht.1
  have h2 : t &&& (slash24 x y z).mask = (slash24 x y z).network := ht.2
  simp only [slash24] at h1 h2
  rw [← h1, ← h2]

theorem pairwise_range_map_slash24 (p q n : Nat) :
    ((List.range n).map (fun j => slash24 p q (j + 1))).Pairwise Block.disjoint := by
  rw [List.pairwise_map]
  refine List.Pairwise.imp ?_ (List.pairwise_lt_range n)
  intro i j hij
  apply slash24_disjoint
  simp only [ipv4]
  omega

theorem expectedBlocks_pairwise (n : Nat) (hn : n ≤ 255) :
    (expectedBlocks n).Pairwise Block.disjoint := by
  unfold expectedBlocks
  rw [List.pairwise_cons, List.pairwise_append]
  refine ⟨?_, pairwise_range_map_slash24 10 2 n, pairwise_range_map_slash24 10 3 n, ?_⟩
  · intro b hb
    rcases List.mem_append.mp hb with h | h
    all_goals
      obtain ⟨j, hj, rfl⟩ := List.mem_map.mp h
      have hj2 := List.mem_range.mp hj
      apply slash24_disjoint
      simp only [ipv4]
      omega
  · intro b hb c hc
    obtain ⟨j, hj, rfl⟩ := List.mem_map.mp hb
    obtain ⟨k, hk, rfl⟩ := List.mem_map.mp hc
    have hj2 := List.mem_range.mp hj
    have hk2 := List.mem_range.mp hk
    apply slash24_disjoint
    simp only [ipv4]
    omega

theorem expectedBlocks_length (n : Nat) : (expectedBlocks n).length = 2 * n + 1 := by
  simp [expectedBlocks]; omega


set_option maxRecDepth 100000 in
theorem subnets_wellFormed_small : ∀ j, j < 255 →
    wellFormedIpv4 (senderSubnet j) = true ∧ wellFormedIpv4 (receiverSubnet j) = true := by
  decide

set_option maxRecDepth 100000 in
theorem slash24_contains_network_small : ∀ j, j < 255 →
    (slash24 10 2 (j + 1)).contains (ipv4 10 2 (j + 1) 0) ∧
      (slash24 10 3 (j + 1)).contains (ipv4 10 3 (j + 1) 0) ∧
      (slash24 10 3 (j + 1)).contains (ipv4 10 3 (j + 1) 2) := by
  decide

theorem expectedBlocks_nonempty (n : Nat) (hn : n ≤ 255) :
    ∀ b ∈ expectedBlocks n, b.contains b.network := by
  intro b hb
  unfold expectedBlocks at hb
  rcases List.mem_cons.mp hb with rfl | hb
  · decide
  · rcases List.mem_append.mp hb with h | h
    · obtain ⟨j, hj, rfl⟩ := List.mem_map.mp h
      exact (slash24_contains_network_small j (by have := List.mem_range.mp hj; omega)).1
    · obtain ⟨j, hj, rfl⟩ := List.mem_map.mp h
      exact (slash24_contains_network_small j (by have := List.mem_range.mp hj; omega)).2.1

/-! ## Address allocation: claims -/

/-- C1: for every flow count n with 1 <= n <= 10 the allocation succeeds and
yields 2n+1 blocks, namely 10.1.1.0/24, then 10.2.(j+1).0/24 and then
10.3.(j+1).0/24 for j in [0, n); these blocks are non-empty and pairwise
disjoint, that is, no address belongs to two of them. -/
theorem C1_blocks_pairwise_disjoint (n : Nat) (h1 : 1 ≤ n) (h10 : n ≤ 10) :
    ∃ blocks, addressBlocks n = some blocks ∧
      blocks = slash24 10 1 1 ::
        ((List.range n).map (fun j => slash24 10 2 (j + 1)) ++
          (List.range n).map (fun j => slash24 10 3 (j + 1))) ∧
      blocks.length = 2 * n + 1 ∧
      (∀ b ∈ blocks, b.contains b.network) ∧
      blocks.Pairwise (fun b c => ∀ a : Nat, ¬ (b.contains a ∧ c.contains a)) := by
  have _ := h1
  have hn : n ≤ 255 := by omega
  exact ⟨expectedBlocks n, addressBlocks_eq n hn, rfl, expectedBlocks_length n,
    expectedBlocks_nonempty n hn, expectedBlocks_pairwise n hn⟩

/-- Witness of C1 at three flows. -/
theorem C1_blocks_pairwise_disjoint_witness :
    ∃ blocks, addressBlocks 3 = some blocks ∧
      blocks = slash24 10 1 1 ::
        ((List.range 3).map (fun j => slash24 10 2 (j + 1)) ++
          (List.range 3).map (fun j => slash24 10 3 (j + 1))) ∧
      blocks.length = 2 * 3 + 1 ∧
      (∀ b ∈ blocks, b.contains b.network) ∧
      blocks.Pairwise (fun b c => ∀ a : Nat, ¬ (b.contains a ∧ c.contains a)) :=
  C1_blocks_pairwise_disjoint 3 (by decide) (by decide)

set_option maxRecDepth 100000 in
/-- C2, as stated, fails at flow count 256: for j = 255 the harness builds
the texts "10.2.256.0" and "10.3.256.0", whose third octet is outside 0..255,
and the allocation does not go through. -/
theorem C2_counterexample :
    (255 < 256 ∧ 256 < 2 ^ 32) ∧
      senderSubnet 255 = "10.2.256.0" ∧ receiverSubnet 255 = "10.3.256.0" ∧
      octetsOf (senderSubnet 255) = some [10, 2, 256, 0] ∧
      wellFormedIpv4 (senderSubnet 255) = false ∧
      wellFormedIpv4 (receiverSubnet 255) = false ∧
      addressBlocks 256 = none := by
  decide

/-- C2 (amended): the scheme generalises to every flow count n with
1 <= n <= 255.  For such n every subnet text built for j in [0, n) is a
well-formed IPv4 network address, and the allocation yields 2n+1 non-empty,
pairwise disjoint blocks.  The bound is tight: all subnet texts of a flow
count n are well-formed exactly when n <= 255. -/
theorem C2_scheme_generalises_up_to_255 (n : Nat) (h1 : 1 ≤ n) :
    ((∀ j, j < n → wellFormedIpv4 (senderSubnet j) = true ∧
        wellFormedIpv4 (receiverSubnet j) = true) ↔ n ≤ 255) ∧
    (n ≤ 255 →
      ∃ blocks, addressBlocks n = some blocks ∧
        blocks.length = 2 * n + 1 ∧
        (∀ b ∈ blocks, b.contains b.network) ∧
        blocks.Pairwise (fun b c => ∀ a : Nat, ¬ (b.contains a ∧ c.contains a))) := by
  have _ := h1
  refine ⟨⟨?_, ?_⟩, ?_⟩
  · intro h
    by_contra hcon
    have h255 := (h 255 (by omega)).1
    have hbad : wellFormedIpv4 (senderSubnet 255) = false := by decide
    rw [hbad] at h255
    cases h255
  · intro hn j hj
    exact subnets_wellFormed_small j (by omega)
  · intro hn
    exact ⟨expectedBlocks n, addressBlocks_eq n hn, expectedBlocks_length n,
      expectedBlocks_nonempty n hn, expectedBlocks_pairwise n hn⟩

/-- Witness of the amended C2 at the largest admissible flow count. -/
theorem C2_scheme_generalises_up_to_255_witness :
    ((∀ j, j < 255 → wellFormedIpv4 (senderSubnet j) = true ∧
        wellFormedIpv4 (receiverSubnet j) = true) ↔ 255 ≤ 255) ∧
    (255 ≤ 255 →
      ∃ blocks, addressBlocks 255 = some blocks ∧
        blocks.length = 2 * 255 + 1 ∧
        (∀ b ∈ blocks, b.contains b.network) ∧
        blocks.Pairwise (fun b c => ∀ a : Nat, ¬ (b.contains a ∧ c.contains a))) :=
  C2_scheme_generalises_up_to_255 255 (by decide)

/-! ## Link rates: claim -/

/-- C8: the access-link rate text "100Mbps" denotes 100000000 bit/s, and for
every scenario of the catalog the bottleneck bandwidth text denotes a rate
strictly below it; every scenario of the catalog has at least one flow. -/
theorem C8_access_rate_exceeds_bottleneck :
    parseDataRate accessDataRate = some 100000000 ∧
      ∀ s ∈ scenarios,
        (∃ b, parseDataRate s.bandwidth = some b ∧ b < 100000000) ∧ 1 ≤ s.numFlows := by
  decide

/-- Witness of C8 at the first scenario of the catalog: 2Mbps against
100Mbps, two flows. -/
theorem C8_access_rate_exceeds_bottleneck_witness :
    lowLowScenario ∈ scenarios ∧
      (∃ b, parseDataRate lowLowScenario.bandwidth = some b ∧ b < 100000000) ∧
      1 ≤ lowLowScenario.numFlows :=
  ⟨by decide, C8_access_rate_exceeds_bottleneck.2 lowLowScenario (by decide)⟩

/-! ## Doubles: lemmas -/

theorem dblOverflow_large : (2 : ℚ) ^ 68 < dblOverflow := by
  unfold dblOverflow
  norm_num

theorem ofExact_of_lt (q : ℚ) (h1 : -dblOverflow < q) (h2 : q < dblOverflow) :
    Dbl.ofExact q = Dbl.fin q := by
  unfold Dbl.ofExact
  rw [if_neg (not_le.mpr h1), if_neg (not_le.mpr h2)]

theorem avgDelay_fin (d : Int) (r : Nat) (hr : 0 < r) (hlo : -2 ^ 63 ≤ d) (hhi : d < 2 ^ 63) :
    avgDelay d r = Dbl.fin (((d : ℚ) / 1000000000) / (r : ℚ)) := by
  have hr1 : (1 : ℚ) ≤ (r : ℚ) := by exact_mod_cast hr
  have hne : (r : ℚ) ≠ 0 := by linarith
  have hd1 : (-2 ^ 63 : ℚ) ≤ (d : ℚ) := by exact_mod_cast hlo
  have hd2 : (d : ℚ) < 2 ^ 63 := by exact_mod_cast hhi
  have habs : |(d : ℚ)| ≤ 2 ^ 63 := abs_le.mpr ⟨hd1, le_of_lt hd2⟩
  have hden : (1 : ℚ) ≤ 1000000000 * (r : ℚ) := by linarith
  have hq : |(d : ℚ) / 1000000000 / (r : ℚ)| ≤ 2 ^ 63 := by
    rw [div_div, abs_div, abs_of_pos (by linarith : (0 : ℚ) < 1000000000 * (r : ℚ))]
    exact le_trans (div_le_self (abs_nonneg _) hden) habs
  have hbig : (2 : ℚ) ^ 63 < dblOverflow :=
    lt_trans (by norm_num) dblOverflow_large
  have hq2 := abs_le.mp hq
  simp only [avgDelay, if_pos hr, Dbl.div, if_pos hne, getSeconds]
  apply ofExact_of_lt
  · linarith [hq2.1]
  · linarith [hq2.2]

/-! ## Metrics: claims -/

/-- C6: in the record of every flow entry the average delay is exactly 0 when
no packet was received, and the delay sum in seconds divided by the number
of received packets otherwise; it is never NaN and never infinite (the
division is only made by a non-zero count), and it is non-negative whenever
the delay sum is. -/
theorem C6_average_delay (simulationTime : ℚ) (variant : String) (i : Nat) (s : Scenario)
    (e : FlowEntry) :
    (e.stats.rxPackets = 0 →
      (mkRecord simulationTime variant i s e).delaySeconds = Dbl.fin 0) ∧
    (0 < e.stats.rxPackets →
      (mkRecord simulationTime variant i s e).delaySeconds
        = Dbl.fin (((e.stats.delaySum : ℚ) / 1000000000) / (e.stats.rxPackets : ℚ))) ∧
    (∃ q, (mkRecord simulationTime variant i s e).delaySeconds = Dbl.fin q) ∧
    (0 ≤ e.stats.delaySum →
      ∃ q, (mkRecord simulationTime variant i s e).delaySeconds = Dbl.fin q ∧ 0 ≤ q) := by
  have hpos : 0 < e.stats.rxPackets →
      (mkRecord simulationTime variant i s e).delaySeconds
        = Dbl.fin (((e.stats.delaySum : ℚ) / 1000000000) / (e.stats.rxPackets : ℚ)) := by
    intro h
    exact avgDelay_fin e.stats.delaySum e.stats.rxPackets h e.stats.inRange.2.2.2.2.1
      e.stats.inRange.2.2.2.2.2
  have hzero : e.stats.rxPackets = 0 →
      (mkRecord simulationTime variant i s e).delaySeconds = Dbl.fin 0 := by
    intro h
    simp [mkRecord, avgDelay, h]
  refine ⟨hzero, hpos, ?_, ?_⟩
  · rcases Nat.eq_zero_or_pos e.stats.rxPackets with h | h
    · exact ⟨0, hzero h⟩
    · exact ⟨_, hpos h⟩
  · intro hd
    rcases Nat.eq_zero_or_pos e.stats.rxPackets with h | h
    · exact ⟨0, hzero h, le_refl 0⟩
    · refine ⟨_, hpos h, ?_⟩
      have h1 : (0 : ℚ) ≤ (e.stats.delaySum : ℚ) := by exact_mod_cast hd
      positivity

/-- Witness of C6: an entry with no received packet and an entry with eight. -/
theorem C6_average_delay_witness :
    (mkRecord 20 "TcpCubic" 0 lowLowScenario
        ⟨1, ⟨ipv4 10 2 1 1, ipv4 10 3 1 2, 6, 49153, 9⟩, ⟨0, 10, 0, 10, 0, by decide⟩⟩).delaySeconds
      = Dbl.fin 0 ∧
    (mkRecord 20 "TcpCubic" 0 lowLowScenario
        ⟨1, ⟨ipv4 10 2 1 1, ipv4 10 3 1 2, 6, 49153, 9⟩,
          ⟨1000, 10, 8, 2, 16000000, by decide⟩⟩).delaySeconds
      = Dbl.fin (((16000000 : ℚ) / 1000000000) / 8) :=
  ⟨(C6_average_delay 20 "TcpCubic" 0 lowLowScenario
      ⟨1, ⟨ipv4 10 2 1 1, ipv4 10 3 1 2, 6, 49153, 9⟩, ⟨0, 10, 0, 10, 0, by decide⟩⟩).1 rfl,
   by
    simpa using (C6_average_delay 20 "TcpCubic" 0 lowLowScenario
      ⟨1, ⟨ipv4 10 2 1 1, ipv4 10 3 1 2, 6, 49153, 9⟩,
        ⟨1000, 10, 8, 2, 16000000, by decide⟩⟩).2.1 (by decide)⟩

theorem startTime_eq (j : Nat) : startTime j = 1 + (j : ℚ) / 5 := by
  unfold startTime
  norm_num
  ring

theorem wireFlow_eq (simulationTime : ℚ) (n j : Nat) (hj : j < n) :
    wireFlow simulationTime ((List.range n).map receiverLinkOf) j
      = some [ App.onOff (.sender j) (ipv4 10 3 (j + 1) 2) 9 "5Mbps" (1 + (j : ℚ) / 5)
                 simulationTime,
               App.packetSink (.receiver j) 0 9 ] := by
  have hget : ((List.range n).map receiverLinkOf).get? j = some (receiverLinkOf j) := by
    simp [List.getElem?_range, hj]
  unfold wireFlow
  rw [hget]
  simp [LinkAddresses.getAddress, receiverLinkOf, startTime_eq, port, anyAddress]

theorem wireTraffic_eq (simulationTime : ℚ) (n : Nat) :
    wireTraffic simulationTime n ((List.range n).map receiverLinkOf)
      = some (expectedApps simulationTime n) := by
  unfold wireTraffic
  rw [allSome_map_some (wireFlow simulationTime ((List.range n).map receiverLinkOf))
    (fun j => [ App.onOff (.sender j) (ipv4 10 3 (j + 1) 2) 9 "5Mbps" (1 + (j : ℚ) / 5)
                 simulationTime,
               App.packetSink (.receiver j) 0 9 ]) (List.range n)
    (fun j hj => wireFlow_eq simulationTime n j (List.mem_range.mp hj))]
  rfl

theorem buildTopology_eq (s : Scenario) (simulationTime : ℚ) (hn : s.numFlows ≤ 255) :
    buildTopology s simulationTime
      = some ⟨s.numFlows, s.bandwidth, s.delay, "100Mbps", "2ms",
          ⟨slash24 10 1 1, [(.router 0, ipv4 10 1 1 1), (.router 1, ipv4 10 1 1 2)]⟩,
          (List.range s.numFlows).map senderLinkOf,
          (List.range s.numFlows).map receiverLinkOf,
          expectedApps simulationTime s.numFlows⟩ := by
  unfold buildTopology
  rw [bottleneckInterfaces_eq, senderInterfaces_eq _ hn, receiverInterfaces_eq _ hn]
  simp only [wireTraffic_eq]
  rfl

theorem expectedApps_succ (simulationTime : ℚ) (n : Nat) :
    expectedApps simulationTime (n + 1)
      = expectedApps simulationTime n ++
          [ App.onOff (.sender n) (ipv4 10 3 (n + 1) 2) 9 "5Mbps" (1 + (n : ℚ) / 5)
              simulationTime,
            App.packetSink (.receiver n) 0 9 ] := by
  simp [expectedApps, List.range_succ]

theorem expectedApps_length (simulationTime : ℚ) (n : Nat) :
    (expectedApps simulationTime n).length = 2 * n := by
  induction n with
  | zero => rfl
  | succ k ih => rw [expectedApps_succ, List.length_append, ih]; simp; omega

theorem expectedApps_generators (simulationTime : ℚ) (n : Nat) (node : NodeRef) :
    (expectedApps simulationTime n).countP (App.isGeneratorOn node)
      = ((List.range n).filter (fun j => decide (NodeRef.sender j = node))).length := by
  induction n with
  | zero => rfl
  | succ k ih =>
    rw [expectedApps_succ, List.countP_append, ih, List.range_succ, List.filter_append,
      List.length_append]
    by_cases h : NodeRef.sender k = node <;>
      simp [List.countP_cons, App.isGeneratorOn, h]

theorem expectedApps_sinks (simulationTime : ℚ) (n : Nat) (node : NodeRef) :
    (expectedApps simulationTime n).countP (App.isSinkOn node)
      = ((List.range n).filter (fun j => decide (NodeRef.receiver j = node))).length := by
  induction n with
  | zero => rfl
  | succ k ih =>
    rw [expectedApps_succ, List.countP_append, ih, List.range_succ, List.filter_append,
      List.length_append]
    by_cases h : NodeRef.receiver k = node <;>
      simp [List.countP_cons, App.isSinkOn, h]

theorem range_filter_eq_length (n j : Nat) (hj : j < n) :
    ((List.range n).filter (fun i => decide (i = j))).length = 1 := by
  induction n with
  | zero => omega
  | succ k ih =>
    rw [List.range_succ, List.filter_append, List.length_append]
    by_cases h : k = j
    · subst h
      have hnone : (List.range k).filter (fun i => decide (i = k)) = [] := by
        rw [List.filter_eq_nil_iff]
        intro a ha
        have := List.mem_range.mp ha
        simp; omega
      simp [hnone]
    · have hlt : j < k := by omega
      simp [ih hlt, h]

theorem expectedApps_one_generator (simulationTime : ℚ) (n j : Nat) (hj : j < n) :
    (expectedApps simulationTime n).countP (App.isGeneratorOn (.sender j)) = 1 := by
  rw [expectedApps_generators]
  have : (fun i => decide (NodeRef.sender i = NodeRef.sender j)) = (fun i => decide (i = j)) := by
    funext i; simp
  rw [this]
  exact range_filter_eq_length n j hj

theorem expectedApps_one_sink (simulationTime : ℚ) (n j : Nat) (hj : j < n) :
    (expectedApps simulationTime n).countP (App.isSinkOn (.receiver j)) = 1 := by
  rw [expectedApps_sinks]
  have : (fun i => decide (NodeRef.receiver i = NodeRef.receiver j)) = (fun i => decide (i = j)) := by
    funext i; simp
  rw [this]
  exact range_filter_eq_length n j hj

theorem expectedApps_get (simulationTime : ℚ) (n j : Nat) (hj : j < n) :
    (expectedApps simulationTime n).get? (2 * j)
        = some (App.onOff (.sender j) (ipv4 10 3 (j + 1) 2) 9 "5Mbps" (1 + (j : ℚ) / 5)
            simulationTime) ∧
      (expectedApps simulationTime n).get? (2 * j + 1)
        = some (App.packetSink (.receiver j) 0 9) := by
  induction n with
  | zero => omega
  | succ k ih =>
    rw [expectedApps_succ]
    have hlen := expectedApps_length simulationTime k
    by_cases h : j < k
    · have h1 := ih h
      constructor
      · rw [List.get?_eq_getElem?, List.getElem?_append_left (by omega), ← List.get?_eq_getElem?]
        exact h1.1
      · rw [List.get?_eq_getElem?, List.getElem?_append_left (by omega), ← List.get?_eq_getElem?]
        exact h1.2
    · have hjk : j = k := by omega
      subst hjk
      constructor
      · rw [List.get?_eq_getElem?, List.getElem?_append_right (by omega)]
        simp [hlen]
      · rw [List.get?_eq_getElem?, List.getElem?_append_right (by omega)]
        have : 2 * j + 1 - (expectedApps simulationTime j).length = 1 := by omega
        simp [this]

set_option maxRecDepth 100000 in
/-- C10, as stated for every flow count, fails at 256 flows: the receiver
subnet text of flow 255 is "10.3.256.0", no block 10.3.256.0/24 exists, the
address assignment is rejected, and no application is attached. -/
theorem C10_counterexample :
    wideScenario.numFlows = 256 ∧
      receiverSubnet 255 = "10.3.256.0" ∧
      wellFormedIpv4 (receiverSubnet 255) = false ∧
      receiverInterface 256 255 = none ∧
      receiverInterfaces 256 = none ∧
      buildTopology wideScenario 20 = none := by
  decide

/-- C10 (amended): for every flow count of at most 255 the topology is built
and carries exactly 2N applications; for every flow index j below N there is
exactly one generator on sender j and exactly one sink on receiver j, they
are the applications 2j and 2j+1, the generator targets port 9 of the
address 10.3.(j+1).2, which is the address of receiver j on its access link
(the second address of the block 10.3.(j+1).0/24, router 1 holding the
first), starts at 1 + j/5 seconds and stops at the simulation time, and the
sink listens on port 9 of any address; distinct flows start at distinct
times. -/
theorem C10_traffic_wiring (s : Scenario) (simulationTime : ℚ) (hn : s.numFlows ≤ 255) :
    ∃ topo, buildTopology s simulationTime = some topo ∧
      topo.apps.length = 2 * s.numFlows ∧
      (∀ j, j < s.numFlows →
        topo.apps.countP (App.isGeneratorOn (.sender j)) = 1 ∧
        topo.apps.countP (App.isSinkOn (.receiver j)) = 1 ∧
        topo.apps.get? (2 * j)
          = some (App.onOff (.sender j) (ipv4 10 3 (j + 1) 2) 9 "5Mbps" (1 + (j : ℚ) / 5)
              simulationTime) ∧
        topo.apps.get? (2 * j + 1) = some (App.packetSink (.receiver j) 0 9) ∧
        topo.receivers.get? j
          = some ⟨slash24 10 3 (j + 1),
              [(.router 1, ipv4 10 3 (j + 1) 1), (.receiver j, ipv4 10 3 (j + 1) 2)]⟩ ∧
        (slash24 10 3 (j + 1)).contains (ipv4 10 3 (j + 1) 2)) ∧
      (∀ j k : Nat, j ≠ k → startTime j ≠ startTime k) := by
  refine ⟨_, buildTopology_eq s simulationTime hn, ?_, ?_, ?_⟩
  · exact expectedApps_length simulationTime s.numFlows
  · intro j hj
    refine ⟨expectedApps_one_generator simulationTime _ j hj,
      expectedApps_one_sink simulationTime _ j hj,
      (expectedApps_get simulationTime _ j hj).1,
      (expectedApps_get simulationTime _ j hj).2, ?_,
      (slash24_contains_network_small j (by omega)).2.2⟩
    simp [List.getElem?_range, hj, receiverLinkOf]
  · intro j k hjk h
    rw [startTime_eq, startTime_eq] at h
    apply hjk
    have h2 : (j : ℚ) = (k : ℚ) := by linarith
    exact_mod_cast h2

/-- Witness of the amended C10 at the first scenario of the catalog. -/
theorem C10_traffic_wiring_witness :
    lowLowScenario.numFlows ≤ 255 ∧
    ∃ topo, buildTopology lowLowScenario 20 = some topo ∧
      topo.apps.length = 2 * lowLowScenario.numFlows ∧
      (∀ j, j < lowLowScenario.numFlows →
        topo.apps.countP (App.isGeneratorOn (.sender j)) = 1 ∧
        topo.apps.countP (App.isSinkOn (.receiver j)) = 1 ∧
        topo.apps.get? (2 * j)
          = some (App.onOff (.sender j) (ipv4 10 3 (j + 1) 2) 9 "5Mbps" (1 + (j : ℚ) / 5)
              20) ∧
        topo.apps.get? (2 * j + 1) = some (App.packetSink (.receiver j) 0 9) ∧
        topo.receivers.get? j
          = some ⟨slash24 10 3 (j + 1),
              [(.router 1, ipv4 10 3 (j + 1) 1), (.receiver j, ipv4 10 3 (j + 1) 2)]⟩ ∧
        (slash24 10 3 (j + 1)).contains (ipv4 10 3 (j + 1) 2)) ∧
      (∀ j k : Nat, j ≠ k → startTime j ≠ startTime k) :=
  ⟨by decide, C10_traffic_wiring lowLowScenario 20 (by decide)⟩

/-! ## The sweep: lemmas -/

theorem Output.empty_append (o : Output) : Output.empty.append o = o := by
  cases o; simp [Output.empty, Output.append]

theorem Output.append_assoc (a b c : Output) : (a.append b).append c = a.append (b.append c) := by
  simp [Output.append]

theorem andThen_pure {σ : Type} (st : σ) (next : σ → Option (σ × Output)) :
    andThen (some (st, Output.empty)) next = next st := by
  cases h : next st with
  | none => simp [andThen, h]
  | some r => obtain ⟨s2, o2⟩ := r; simp [andThen, h, Output.empty_append]

theorem andThen_assoc {σ : Type} (first : Option (σ × Output))
    (f g : σ → Option (σ × Output)) :
    andThen (andThen first f) g = andThen first (fun st => andThen (f st) g) := by
  cases first with
  | none => rfl
  | some r =>
    obtain ⟨s1, o1⟩ := r
    cases hf : f s1 with
    | none => simp [andThen, hf]
    | some r2 =>
      obtain ⟨s2, o2⟩ := r2
      cases hg : g s2 with
      | none => simp [andThen, hf, hg]
      | some r3 =>
        obtain ⟨s3, o3⟩ := r3
        simp [andThen, hf, hg, Output.append_assoc]

theorem sweep_append {σ : Type} (eng : Engine σ) (simulationTime : ℚ) (scens : List Scenario)
    (pre post : List String) (st : σ) :
    sweep eng simulationTime scens (pre ++ post) st
      = andThen (sweep eng simulationTime scens pre st) (sweep eng simulationTime scens post) := by
  induction pre generalizing st with
  | nil => simp [sweep, andThen_pure]
  | cons v vs ih =>
    simp only [List.cons_append, sweep]
    rw [andThen_assoc]
    congr 1
    funext st1
    exact ih st1

theorem runVariant_unresolved {σ : Type} (eng : Engine σ) (simulationTime : ℚ)
    (scens : List Scenario) (v : String) (st : σ)
    (hv : resolveVariant eng v = .lookupRaised ∨ resolveVariant eng v = .notAttempted) :
    runVariant eng simulationTime scens v st
      = some (st, ⟨[], if resolveVariant eng v = .lookupRaised then [skipWarning v] else []⟩) := by
  cases h : resolveVariant eng v with
  | resolved tid => rw [h] at hv; rcases hv with h1 | h1 <;> cases h1
  | lookupRaised => simp [runVariant, h]
  | notAttempted => simp [runVariant, h, Output.empty]

theorem andThen_map_rows {σ : Type} (first : Option (σ × Output))
    (next : σ → Option (σ × Output)) (st : σ → σ) (ws : List String) :
    (andThen first (fun st1 => andThen (some (st1, ⟨[], ws⟩)) next)).map
        (fun r => (r.1, r.2.rows))
      = (andThen first next).map (fun r => (r.1, r.2.rows)) := by
  have _ := st
  cases first with
  | none => rfl
  | some r =>
    obtain ⟨s1, o1⟩ := r
    cases hn : next s1 with
    | none => simp [andThen, hn]
    | some r2 =>
      obtain ⟨s2, o2⟩ := r2
      simp [andThen, hn, Output.append]

/-! ## The sweep: claims -/

/-- C4, as stated, fails for the variant name "Z": the name is none of the
three names the harness looks up, the variant is skipped by the final
else-branch, and no warning at all is written (the sweep over "Z" and
"TcpNewReno" ends with an empty list of warnings), where the claim asks for
exactly one. -/
theorem C4_counterexample :
    resolveVariant quietEngine "Z" = Resolution.notAttempted ∧
      runVariant quietEngine 20 scenarios "Z" () = some ((), ⟨[], []⟩) ∧
      (sweep quietEngine 20 scenarios ["Z", "TcpNewReno"] ()).map (fun r => r.2.warnings)
        = some [] ∧
      ((sweep quietEngine 20 scenarios ["Z", "TcpNewReno"] ()).map
        (fun r => r.2.warnings.count (skipWarning "Z"))) ≠ some 1 := by
  decide

/-- C4 (amended): let a variant of the list not resolve.  Its iteration
writes zero rows and leaves the engine untouched.  It writes exactly one
warning, naming the variant, when the name is one of the three names the
harness looks up and the engine lookup raises, and no warning when the name
is none of the three.  The sweep over the whole list is the sweep over the
variants before it, then that warning (if any), then the sweep over the
variants after it started from the same engine state; so the rows and the
final engine state are those of the sweep over the list without the
variant. -/
theorem C4_unresolved_variant_skipped {σ : Type} (eng : Engine σ) (simulationTime : ℚ)
    (scens : List Scenario) (pre post : List String) (v : String) (st0 : σ)
    (hv : resolveVariant eng v = .lookupRaised ∨ resolveVariant eng v = .notAttempted) :
    (∀ st, runVariant eng simulationTime scens v st
      = some (st, ⟨[], if resolveVariant eng v = .lookupRaised then [skipWarning v] else []⟩)) ∧
    ((v = "TcpNewReno" ∨ v = "TcpCubic" ∨ v = "TcpBbr") →
      resolveVariant eng v = .lookupRaised) ∧
    (¬ (v = "TcpNewReno" ∨ v = "TcpCubic" ∨ v = "TcpBbr") →
      resolveVariant eng v = .notAttempted) ∧
    sweep eng simulationTime scens (pre ++ v :: post) st0
      = andThen (sweep eng simulationTime scens pre st0) (fun st1 =>
          andThen
            (some (st1,
              ⟨[], if resolveVariant eng v = .lookupRaised then [skipWarning v] else []⟩))
            (sweep eng simulationTime scens post)) ∧
    sweep eng simulationTime scens (pre ++ post) st0
      = andThen (sweep eng simulationTime scens pre st0)
          (sweep eng simulationTime scens post) ∧
    (sweep eng simulationTime scens (pre ++ v :: post) st0).map (fun r => (r.1, r.2.rows))
      = (sweep eng simulationTime scens (pre ++ post) st0).map (fun r => (r.1, r.2.rows)) := by
  have hrun := fun st => runVariant_unresolved eng simulationTime scens v st hv
  have hfull : sweep eng simulationTime scens (pre ++ v :: post) st0
      = andThen (sweep eng simulationTime scens pre st0) (fun st1 =>
          andThen
            (some (st1,
              ⟨[], if resolveVariant eng v = .lookupRaised then [skipWarning v] else []⟩))
            (sweep eng simulationTime scens post)) := by
    rw [sweep_append]
    congr 1
    funext st1
    simp only [sweep]
    rw [hrun st1]
  refine ⟨hrun, ?_, ?_, hfull, sweep_append eng simulationTime scens pre post st0, ?_⟩
  · intro hname
    rcases hv with hv | h
    · exact hv
    · exfalso
      unfold resolveVariant at h
      rcases hname with h1 | h1 | h1
      · rw [if_pos h1] at h
        cases hl : eng.lookupByName "ns3::TcpNewReno" <;> simp [hl, Resolution.ofLookup] at h
      · subst h1
        simp only [show ¬ ("TcpCubic" = "TcpNewReno") by decide, if_false, if_true] at h
        cases hl : eng.lookupByName "ns3::TcpCubic" <;> simp [hl, Resolution.ofLookup] at h
      · subst h1
        simp only [show ¬ ("TcpBbr" = "TcpNewReno") by decide,
          show ¬ ("TcpBbr" = "TcpCubic") by decide, if_false, if_true] at h
        cases hl : eng.lookupByName "ns3::TcpBbr" <;> simp [hl, Resolution.ofLookup] at h
  · intro hname
    have h1 : ¬ v = "TcpNewReno" := fun h => hname (Or.inl h)
    have h2 : ¬ v = "TcpCubic" := fun h => hname (Or.inr (Or.inl h))
    have h3 : ¬ v = "TcpBbr" := fun h => hname (Or.inr (Or.inr h))
    simp [resolveVariant, h1, h2, h3]
  · rw [hfull, sweep_append]
    exact andThen_map_rows _ _ id _

/-- Witness of the amended C4: an engine without BBR, the catalog order with
"TcpBbr" between "TcpNewReno" and "TcpCubic"; the sweep with "TcpBbr" has the
rows and final state of the sweep without it. -/
theorem C4_unresolved_variant_skipped_witness :
    (resolveVariant noBbrEngine "TcpBbr" = .lookupRaised ∨
      resolveVariant noBbrEngine "TcpBbr" = .notAttempted) ∧
    runVariant noBbrEngine 20 scenarios "TcpBbr" 4
      = some (4, ⟨[], if resolveVariant noBbrEngine "TcpBbr" = .lookupRaised
          then [skipWarning "TcpBbr"] else []⟩) ∧
    (sweep noBbrEngine 20 scenarios (["TcpNewReno"] ++ "TcpBbr" :: ["TcpCubic"]) 0).map
        (fun r => (r.1, r.2.rows))
      = (sweep noBbrEngine 20 scenarios (["TcpNewReno"] ++ ["TcpCubic"]) 0).map
        (fun r => (r.1, r.2.rows)) :=
  ⟨by decide,
   (C4_unresolved_variant_skipped noBbrEngine 20 scenarios ["TcpNewReno"] ["TcpCubic"]
      "TcpBbr" 0 (by decide)).1 4,
   (C4_unresolved_variant_skipped noBbrEngine 20 scenarios ["TcpNewReno"] ["TcpCubic"]
      "TcpBbr" 0 (by decide)).2.2.2.2.2⟩

theorem runConfig_some (simulationTime : ℚ) (tid : TypeId) (s : Scenario)
    (hn : s.numFlows ≤ 255) :
    ∃ cfg, runConfig simulationTime tid s = some cfg ∧ cfg.socketType = tid ∧
      cfg.queueMaxPackets = s.bufferPackets ∧ cfg.topology.numFlows = s.numFlows ∧
      cfg.stopTime = simulationTime + 1 := by
  unfold runConfig
  rw [buildTopology_eq s simulationTime hn]
  refine ⟨_, rfl, rfl, rfl, rfl, ?_⟩
  norm_num

/-- C9, as stated, fails: the number of records appended for a run is the
number of entries of the statistics map the engine reports, not the flow
count of the scenario.  With an engine that reports the two connections of
the first scenario as four flows (data and acknowledgement direction each),
four records are appended for the resolved variant "TcpNewReno" at 20 s. -/
theorem C9_counterexample :
    scenarios.head? = some lowLowScenario ∧
      resolveVariant fourFlowEngine "TcpNewReno" = Resolution.resolved ⟨15⟩ ∧
      (runVariant fourFlowEngine 20 [lowLowScenario] "TcpNewReno" ()).map
          (fun r => r.2.rows.length) = some 4 ∧
      (runVariant fourFlowEngine 20 [lowLowScenario] "TcpNewReno" ()).map
          (fun r => r.2.rows.length) ≠ some 2 := by
  decide

/-- C9 (amended): for a resolved variant run on the first catalog scenario
(2Mbps, 10ms, buffer 10, 2 flows) with duration 20 s, the run completes and
appends one record per entry of the statistics map the engine reports for
that run, in map order; each of these records carries the description
"Low-bandwidth, Low-latency" of the catalog entry, the flow count 2, the
variant name and the scenario number 1. -/
theorem C9_first_scenario_records {σ : Type} (eng : Engine σ) (v : String) (tid : TypeId)
    (st0 : σ) (hres : resolveVariant eng v = .resolved tid) :
    scenarios.head? = some lowLowScenario ∧
    ∃ cfg, runConfig 20 tid lowLowScenario = some cfg ∧
      cfg.socketType = tid ∧ cfg.queueMaxPackets = 10 ∧ cfg.topology.numFlows = 2 ∧
      cfg.stopTime = 21 ∧
      ∃ rows, runVariant eng 20 [lowLowScenario] v st0 = some ((eng.run st0 cfg).1, ⟨rows, []⟩) ∧
        rows = (eng.run st0 cfg).2.entries.map (mkRecord 20 v 0 lowLowScenario) ∧
        rows.length = (eng.run st0 cfg).2.entries.length ∧
        ∀ r ∈ rows, r.description = "Low-bandwidth, Low-latency" ∧ r.numFlows = 2 ∧
          r.variant = v ∧ r.scenario = 1 := by
  refine ⟨by decide, ?_⟩
  obtain ⟨cfg, hcfg, h1, h2, h3, h4⟩ := runConfig_some 20 tid lowLowScenario (by decide)
  refine ⟨cfg, hcfg, h1, h2, h3, ?_, _, ?_, rfl, ?_, ?_⟩
  · rw [h4]; norm_num
  · simp [runVariant, hres, runScenarios, runScenario, hcfg, andThen, Output.append,
      Output.empty, collect]
  · simp
  · intro r hr
    obtain ⟨e, _, rfl⟩ := List.mem_map.mp hr
    exact ⟨rfl, rfl, rfl, rfl⟩

/-- Witness of the amended C9: the engine that reports four flows. -/
theorem C9_first_scenario_records_witness :
    resolveVariant fourFlowEngine "TcpNewReno" = .resolved ⟨15⟩ ∧
    ∃ cfg, runConfig 20 ⟨15⟩ lowLowScenario = some cfg ∧
      cfg.socketType = ⟨15⟩ ∧ cfg.queueMaxPackets = 10 ∧ cfg.topology.numFlows = 2 ∧
      cfg.stopTime = 21 ∧
      ∃ rows, runVariant fourFlowEngine 20 [lowLowScenario] "TcpNewReno" ()
          = some ((fourFlowEngine.run () cfg).1, ⟨rows, []⟩) ∧
        rows = (fourFlowEngine.run () cfg).2.entries.map
          (mkRecord 20 "TcpNewReno" 0 lowLowScenario) ∧
        rows.length = (fourFlowEngine.run () cfg).2.entries.length ∧
        ∀ r ∈ rows, r.description = "Low-bandwidth, Low-latency" ∧ r.numFlows = 2 ∧
          r.variant = "TcpNewReno" ∧ r.scenario = 1 :=
  ⟨by decide, (C9_first_scenario_records fourFlowEngine "TcpNewReno" ⟨15⟩ () (by decide)).2⟩

/-! ## Results file -/

theorem splitFields_ne_nil (sep : Char) (l : List Char) : splitFields sep l ≠ [] := by
  induction l with
  | nil => simp [splitFields]
  | cons c cs ih =>
    unfold splitFields
    by_cases h : c = sep
    · simp [h]
    · cases hs : splitFields sep cs with
      | nil => exact absurd hs ih
      | cons f fs => simp [h]

theorem splitFields_length (sep : Char) (l : List Char) :
    (splitFields sep l).length = l.count sep + 1 := by
  induction l with
  | nil => simp [splitFields]
  | cons c cs ih =>
    unfold splitFields
    by_cases h : c = sep
    · subst h
      simp [ih]
    · have hne : (c == sep) = false := by simpa using h
      cases hs : splitFields sep cs with
      | nil => exact absurd hs (splitFields_ne_nil sep cs)
      | cons f fs =>
        rw [hs] at ih
        simp only [h, if_false, List.length_cons, List.count_cons, hne]
        simp only [List.length_cons] at ih
        simpa using ih

theorem splitFields_append_sep (sep : Char) (f rest : List Char) (hf : sep ∉ f) :
    splitFields sep (f ++ sep :: rest) = f :: splitFields sep rest := by
  induction f with
  | nil => simp [splitFields]
  | cons c cs ih =>
    have hc : ¬ c = sep := fun h => hf (by simp [h])
    have hcs : sep ∉ cs := fun h => hf (List.mem_cons_of_mem c h)
    simp only [List.cons_append, splitFields, hc, if_false, List.append_eq, ih hcs]

theorem catalog_description_commas : ∀ s ∈ scenarios, s.description.data.count ',' = 1 := by
  decide

theorem csvRow_firstScenario_data (fmt : Dbl → String) (simulationTime : ℚ) (e : FlowEntry) :
    (csvRow fmt (mkRecord simulationTime "TcpNewReno" 0 lowLowScenario e)).data
      = "TcpNewReno".data ++ ',' :: ("1".data ++ ',' :: ("Low-bandwidth".data ++ ',' ::
          (" Low-latency".data ++ ',' :: ("2Mbps".data ++ ',' :: ("10ms".data ++ ',' ::
          ("10".data ++ ',' :: ("2".data ++ ',' ::
            (toString e.flowId ++ "," ++ showIpv4 e.tuple.sourceAddress ++ "," ++
              showIpv4 e.tuple.destinationAddress ++ "," ++
              fmt (throughput e.stats.rxBytes simulationTime) ++ "," ++
              fmt (avgDelay e.stats.delaySum e.stats.rxPackets) ++ "," ++
              toString e.stats.lostPackets ++ "," ++ toString e.stats.txPackets ++ "," ++
              toString e.stats.rxPackets).data))))))) := by
  have h1 : (toString (0 + 1 : Nat)).data = "1".data := by decide
  have h10 : (toString (10 : Nat)).data = "10".data := by decide
  have h2 : (toString (2 : Nat)).data = "2".data := by decide
  have hd : "Low-bandwidth, Low-latency".data
      = "Low-bandwidth".data ++ ',' :: " Low-latency".data := by decide
  have hc : ",".data = [','] := by decide
  simp only [csvRow, mkRecord, lowLowScenario, String.data_append, h1, h10, h2, hd, hc,
    List.append_assoc, List.singleton_append, List.cons_append, List.nil_append]

/-- C3 is broken by the code: the header has 15 comma-separated fields, but a
data row of every catalog scenario has at least 16, because the scenario
description is written unquoted and contains a comma.  In a row of the first
scenario the third field is "Low-bandwidth" (not the whole description), the
fourth is " Low-latency", and the seventh is the buffer size "10" (not the
flow count, which is the eighth). -/
theorem C3_description_splits_row (fmt : Dbl → String) (simulationTime : ℚ) (e : FlowEntry) :
    (csvFields csvHeader).length = 15 ∧
    (∀ (v : String) (i : Nat) (s : Scenario), s ∈ scenarios →
      16 ≤ (csvFields (csvRow fmt (mkRecord simulationTime v i s e))).length) ∧
    (csvFields (csvRow fmt (mkRecord simulationTime "TcpNewReno" 0 lowLowScenario e))).take 8
      = ["TcpNewReno", "1", "Low-bandwidth", " Low-latency", "2Mbps", "10ms", "10", "2"] := by
  refine ⟨by decide, ?_, ?_⟩
  · intro v i s hs
    have hd := catalog_description_commas s hs
    have hc : ",".data.count ',' = 1 := by decide
    unfold csvFields
    rw [List.length_map, splitFields_length]
    simp only [csvRow, mkRecord, String.data_append, List.count_append, hd, hc]
    omega
  · unfold csvFields
    rw [csvRow_firstScenario_data]
    rw [splitFields_append_sep _ _ _ (by decide), splitFields_append_sep _ _ _ (by decide),
      splitFields_append_sep _ _ _ (by decide), splitFields_append_sep _ _ _ (by decide),
      splitFields_append_sep _ _ _ (by decide), splitFields_append_sep _ _ _ (by decide),
      splitFields_append_sep _ _ _ (by decide), splitFields_append_sep _ _ _ (by decide)]
    rfl

/-- Witness of C3 at a concrete flow entry of the first scenario, with "0"
as the text of every double. -/
theorem C3_description_splits_row_witness :
    lowLowScenario ∈ scenarios ∧
    16 ≤ (csvFields (csvRow (fun _ => "0") (mkRecord 20 "TcpNewReno" 0 lowLowScenario
        ⟨1, ⟨ipv4 10 2 1 1, ipv4 10 3 1 2, 6, 49153, 9⟩,
          ⟨0, 10, 0, 10, 0, by decide⟩⟩))).length :=
  ⟨by decide,
   (C3_description_splits_row (fun _ => "0") 20
      ⟨1, ⟨ipv4 10 2 1 1, ipv4 10 3 1 2, 6, 49153, 9⟩, ⟨0, 10, 0, 10, 0, by decide⟩⟩).2.1
      "TcpNewReno" 0 lowLowScenario (by decide)⟩
end TcpDumbbell
